import Mathlib

/-!
Verification of the lifecycle orchestrator of the `ogc-plugins-juju`
repository against its natural-language specification.

The repository holds two variants of the plugin:

* `ogc_plugins_juju.py` (module-level class `Juju`, version 1.0.35) —
  embedded below in namespace `OgcJuju`;
* `ogc_plugins_juju/__init__.py` (an older package variant of the same
  class) — embedded in namespace `OgcJujuInit`.

The embedding is shallow: every external operation the orchestrator can
issue (through the `sh` library, `cmd_ok`, or `juju_wait`) is an `Ev`
value, and the outcome of each issued operation is supplied by an oracle
`R : Ev → Bool` standing for the external CommandRunner (`true` means the
operation succeeded).  A run of `process` returns the ordered list of
events issued — in source order — together with the terminal status.
Python exceptions are modelled by the `RunStatus` error constructors:
`SpecConfigException` and `SpecProcessException` from `ogc.exceptions`,
and an uncaught `sh.ErrorReturnCode` escaping the method.

Nondeterministic local names (the uuid-derived charm-pull directory and
the overlay temp file path) are passed in as explicit parameters `fp`
and `ovp`.  Optional string options are modelled as `String` with the
empty string for an unset value, matching Python truthiness (`None` and
`""` behave identically at every use site of these options).

`Ev.waitStep` is not an external operation: it marks an invocation of the
`_wait` step itself (the external wait operation `Ev.waitOp` is issued
inside that step only when the `deploy.wait` flag is truthy).  All other
`Ev` constructors are CommandRunner operations.
-/

/-- Events observable during a run: one constructor per external operation
the plugin can issue, plus the `waitStep` marker recording that the
`_wait` step was entered. -/
inductive Ev where
  | runOverride (script : String)
  | teardown (controller : String)
  | bootstrap (args : List String)
  | addModel (args : List String)
  | pull (args : List String)
  | deploy (args : List String)
  | configSet (cm appName setting : String)
  | waitStep
  | waitOp (cm : String) (timeoutSecs : Nat)
deriving DecidableEq, Repr

/-- Terminal status of a run.  `specConfigError` models an
`ogc.exceptions.SpecConfigException` (raised by `conflicts`),
`specProcessError` a `SpecProcessException`, and `shErrorReturnCode` an
`sh.ErrorReturnCode` that escapes uncaught. -/
inductive RunStatus where
  | ok
  | specConfigError (msg : String)
  | specProcessError (msg : String)
  | shErrorReturnCode (msg : String)
deriving DecidableEq, Repr

/-- `s.startswith("cs:")` from the source, embedded over the character
list so that it evaluates in the kernel. -/
def startsWithCs (s : String) : Bool := s.data.take 3 == ['c', 's', ':']

/-- The `for config in config_sets` loop shared (verbatim) by both
variants of `process`: each entry is split into an application name and a
setting and `juju config -m <cm> <app> <setting>` is issued; a failing
call raises `sh.ErrorReturnCode`, which neither variant catches, so the
loop stops at the first failure. -/
def configLoop (R : Ev → Bool) (cm : String) :
    List (String × String) → List Ev × RunStatus
  | [] => ([], RunStatus.ok)
  | (a, s) :: rest =>
      let c := Ev.configSet cm a s
      if R c then
        let r := configLoop R cm rest
        (c :: r.1, r.2)
      else ([c], RunStatus.shErrorReturnCode "juju config failed")

/-- Sequencing of two steps under Python exception propagation: if the
first step raised, its exception aborts the run (the second step's events
are not issued); otherwise the second step runs and its events are
appended. -/
def andThen (x y : List Ev × RunStatus) : List Ev × RunStatus :=
  match x.2 with
  | RunStatus.ok => (x.1 ++ y.1, y.2)
  | e => (x.1, e)

theorem andThen_ok (x y : List Ev × RunStatus)
    (h : (andThen x y).2 = RunStatus.ok) :
    x.2 = RunStatus.ok ∧ y.2 = RunStatus.ok ∧
      (andThen x y).1 = x.1 ++ y.1 := by
  cases hx : x.2 <;> simp_all [andThen]

theorem andThen_eq_of_ok (x y : List Ev × RunStatus)
    (hx : x.2 = RunStatus.ok) :
    andThen x y = (x.1 ++ y.1, y.2) := by
  simp [andThen, hx]

theorem andThen_fst_pre (x y : List Ev × RunStatus) :
    ∃ rest, (andThen x y).1 = x.1 ++ rest := by
  cases hx : x.2 <;> simp [andThen, hx]

theorem mem_andThen (x y : List Ev × RunStatus) (e : Ev)
    (h : e ∈ (andThen x y).1) :
    e ∈ x.1 ∨ e ∈ y.1 := by
  cases hx : x.2 <;> simp_all [andThen]

namespace OgcJuju

/-- The options of `src/ogc_plugins_juju.py` that `process` and the steps
it calls read, snapshotted as one record.  String-valued optional options
use `""` for unset (Python `None` and `""` are both falsy and are used
only under truthiness guards); list options use `[]`; `configSets` holds
the `config` entries already split at the single space, as done by
`app_name, setting = config.split(" ")` in the loop. -/
structure JujuIntent where
  cloud : String := ""
  controller : String := ""
  model : String := ""
  force : Bool := false
  bootstrap : Bool := false
  bootstrapConstraints : String := ""
  bootstrapSeries : String := ""
  modelDefaults : List String := []
  configDefaults : List String := []
  bootstrapDebug : Bool := false
  bootstrapRun : String := ""
  disableAddModel : Bool := false
  replaceController : Bool := false
  deploy : Bool := false
  reuse : Bool := false
  bundle : String := ""
  charm : String := ""
  overlay : String := ""
  channel : String := ""
  constraints : String := ""
  series : String := ""
  deployWait : Bool := false
  deployTimeout : Nat := 0
  configSets : List (String × String) := []
  teardown : Bool := false
deriving DecidableEq, Repr

/-- `self._fmt_controller_model`. -/
def fmtControllerModel (i : JujuIntent) : String :=
  i.controller ++ ":" ++ i.model

/-- Argument list built by `_bootstrap` for the bootstrap operation. -/
def bootstrapArgs (i : JujuIntent) : List String :=
  ["bootstrap", i.cloud, i.controller]
    ++ (if !i.bootstrapConstraints.isEmpty then
          ["--bootstrap-constraints", i.bootstrapConstraints] else [])
    ++ (if !i.bootstrapSeries.isEmpty then
          ["--bootstrap-series", i.bootstrapSeries] else [])
    ++ (if i.force then ["--force"] else [])
    ++ i.modelDefaults.flatMap (fun d => ["--model-default", d])
    ++ i.configDefaults.flatMap (fun c => ["--config", c])
    ++ (if i.bootstrapDebug then ["--debug"] else [])

/-- Argument list for `juju add-model` (identical in `_bootstrap` and in
`_add_model`). -/
def addModelArgs (i : JujuIntent) : List String :=
  ["-c", i.controller, i.model, i.cloud]

/-- `_add_model` (also the tail of `_bootstrap` when add-model is not
disabled): issues `add-model`; an `sh.ErrorReturnCode` is caught and
re-raised as `SpecProcessException`. -/
def addModelStep (R : Ev → Bool) (i : JujuIntent) : List Ev × RunStatus :=
  let a := Ev.addModel (addModelArgs i)
  if R a then ([a], RunStatus.ok)
  else ([a], RunStatus.specProcessError "Failed to add model")

/-- `_bootstrap`: when `bootstrap.replace-controller` is truthy, first
run `_teardown` (whose `sh.ErrorReturnCode` is caught and only logged, so
the step always continues); then issue bootstrap (failure is re-raised as
`SpecProcessException`); then, unless `bootstrap.disable-add-model` is
truthy, add the model. -/
def bootstrapPhase (R : Ev → Bool) (i : JujuIntent) : List Ev × RunStatus :=
  let t : List Ev :=
    if i.replaceController then [Ev.teardown i.controller] else []
  let b := Ev.bootstrap (bootstrapArgs i)
  if R b then
    if i.disableAddModel then (t ++ [b], RunStatus.ok)
    else
      let a := addModelStep R i
      (t ++ b :: a.1, a.2)
  else (t ++ [b], RunStatus.specProcessError "Unable to bootstrap")

/-- Argument list handed to `charm pull` by `_deploy` in the
charmstore branch.  NOTE (faithful to the source): the freshly generated
local path `fp` is appended only inside the `if channel:` block, so
without a channel the pull is issued with the bundle reference alone. -/
def pullArgs (i : JujuIntent) (fp : String) : List String :=
  [i.bundle] ++ (if !i.channel.isEmpty then ["--channel", i.channel, fp] else [])

/-- Whether `_deploy` materializes the overlay text into a temp file
(the `if bundle and overlay:` guard). -/
def overlayMaterialized (i : JujuIntent) : Bool :=
  !i.bundle.isEmpty && !i.overlay.isEmpty

/-- The `juju deploy` argument list built by `_deploy`: the
`-m <controller>:<model> <target>` head chosen by the
charm / charmstore-bundle / plain-bundle branch, then the conditional
appends in source order (overlay temp-file path, channel, single-quoted
constraints, series, `--force`). -/
def deployCmdArgs (i : JujuIntent) (fp ovp : String) : List String :=
  (if !i.charm.isEmpty then
     ["-m", fmtControllerModel i, i.charm]
   else if !i.bundle.isEmpty && startsWithCs i.bundle then
     ["-m", fmtControllerModel i, fp ++ "/bundle.yaml"]
   else
     ["-m", fmtControllerModel i, i.bundle])
  ++ (if overlayMaterialized i then ["--overlay", ovp] else [])
  ++ (if !i.channel.isEmpty then ["--channel", i.channel] else [])
  ++ (if !i.constraints.isEmpty then
        ["--constraints", "'" ++ i.constraints ++ "'"] else [])
  ++ (if !i.series.isEmpty then ["--series", i.series] else [])
  ++ (if i.force then ["--force"] else [])

/-- `_deploy`: in the charmstore branch a `charm pull` is issued first
(its `sh.ErrorReturnCode` is not caught); then the deploy operation runs
through `cmd_ok`, and a non-ok result raises `SpecProcessException`. -/
def deployStep (R : Ev → Bool) (i : JujuIntent) (fp ovp : String) :
    List Ev × RunStatus :=
  let d := Ev.deploy (deployCmdArgs i fp ovp)
  let fin : List Ev → List Ev × RunStatus := fun pre =>
    if R d then (pre ++ [d], RunStatus.ok)
    else (pre ++ [d], RunStatus.specProcessError "Failed to deploy")
  if !i.charm.isEmpty then fin []
  else if !i.bundle.isEmpty && startsWithCs i.bundle then
    let p := Ev.pull (pullArgs i fp)
    if R p then fin [p]
    else ([p], RunStatus.shErrorReturnCode "charm pull failed")
  else fin []

/-- `_wait`: the step is always entered (recorded as `Ev.waitStep`); the
external `juju_wait` operation is issued only when `deploy.wait` is
truthy, with the effective timeout `deploy.timeout` when truthy else
7200; its failure is re-raised as `SpecProcessException`. -/
def waitPhase (R : Ev → Bool) (i : JujuIntent) : List Ev × RunStatus :=
  if i.deployWait then
    let w := Ev.waitOp (fmtControllerModel i)
      (if i.deployTimeout != 0 then i.deployTimeout else 7200)
    if R w then ([Ev.waitStep, w], RunStatus.ok)
    else ([Ev.waitStep, w],
          RunStatus.specProcessError "Failed to get a completed deployment status")
  else ([Ev.waitStep], RunStatus.ok)

/-- The body of the `if self.opt("deploy"):` block of `process`:
add the model first when `bootstrap.disable-add-model` is truthy, then
`_deploy`, then the config loop, then `_wait`. -/
def deploySection (R : Ev → Bool) (i : JujuIntent) (fp ovp : String) :
    List Ev × RunStatus :=
  andThen (if i.disableAddModel then addModelStep R i
           else ([], RunStatus.ok))
    (andThen (deployStep R i fp ovp)
      (andThen (configLoop R (fmtControllerModel i) i.configSets)
        (waitPhase R i)))

/-- `process` of `src/ogc_plugins_juju.py`: the `bootstrap.run` override
short-circuits everything (`_run` executes the script, re-raising a
failure as `SpecProcessException`); otherwise bootstrap unless
`deploy.reuse`, then the deploy section, then best-effort teardown when
the `teardown` option is truthy (`_teardown` swallows failures, so the
teardown event is issued and the run stays ok). -/
def process (R : Ev → Bool) (i : JujuIntent) (fp ovp : String) :
    List Ev × RunStatus :=
  if !i.bootstrapRun.isEmpty then
    let o := Ev.runOverride i.bootstrapRun
    if R o then ([o], RunStatus.ok)
    else ([o], RunStatus.specProcessError "Failure to bootstrap")
  else
    andThen (if !i.reuse && i.bootstrap then bootstrapPhase R i
             else ([], RunStatus.ok))
      (andThen (if i.deploy then deploySection R i fp ovp
                else ([], RunStatus.ok))
        ((if i.teardown then [Ev.teardown i.controller] else []),
         RunStatus.ok))

/-- `conflicts`: rejects an intent carrying both `deploy.bundle` and
`deploy.charm`. -/
def conflicts (i : JujuIntent) : Option String :=
  if !i.bundle.isEmpty && !i.charm.isEmpty then
    some "Can not have both bundle and charm defined in deployment, must choose one or the other."
  else none

/-- Modelled from the spec: the plugin framework (the `ogc` package, not
part of this repository's sources) runs each plugin's `conflicts` check
before `process`; a `SpecConfigException` raised there aborts the run
before any operation is issued. -/
def run (R : Ev → Bool) (i : JujuIntent) (fp ovp : String) :
    List Ev × RunStatus :=
  match conflicts i with
  | some m => ([], RunStatus.specConfigError m)
  | none => process R i fp ovp

end OgcJuju

namespace OgcJujuInit

/-- The options read by the older package variant
`src/ogc_plugins_juju/__init__.py`, snapshotted as one record (same
conventions as `OgcJuju.JujuIntent`). -/
structure JujuIntent where
  cloud : String := ""
  controller : String := ""
  model : String := ""
  bootstrap : Bool := false
  bootstrapConstraints : String := ""
  bootstrapDebug : Bool := false
  disableAddModel : Bool := false
  deploy : Bool := false
  reuse : Bool := false
  bundle : String := ""
  overlay : String := ""
  bundleChannel : String := ""
  charmChannel : String := ""
  deployWait : Bool := false
  configSets : List (String × String) := []
deriving DecidableEq, Repr

/-- `self._fmt_controller_model` of the package variant. -/
def fmtControllerModel (i : JujuIntent) : String :=
  i.controller ++ ":" ++ i.model

/-- `_bootstrap` of the package variant: bootstrap (failure re-raised as
`SpecProcessException`), then add-model unless disabled (its failure,
uncaught, escapes as `sh.ErrorReturnCode`). -/
def bootstrapPhase (R : Ev → Bool) (i : JujuIntent) : List Ev × RunStatus :=
  let args := ["bootstrap", i.cloud, i.controller]
    ++ (if !i.bootstrapConstraints.isEmpty then
          ["--bootstrap-constraints", i.bootstrapConstraints] else [])
    ++ (if i.bootstrapDebug then ["--debug"] else [])
  let b := Ev.bootstrap args
  if R b then
    if i.disableAddModel then ([b], RunStatus.ok)
    else
      let a := Ev.addModel ["-c", i.controller, i.model, i.cloud]
      if R a then ([b, a], RunStatus.ok)
      else ([b, a], RunStatus.shErrorReturnCode "add-model failed")
  else ([b], RunStatus.specProcessError "Unable to bootstrap")

/-- `_deploy` of the package variant: in the `cs:` branch pull first
(the local path is again only appended when `bundle_channel` is truthy),
then deploy the pulled `bundle.yaml` with optional `--overlay` (the
overlay option is passed directly, no temp file) and optional
`--channel <charm_channel>`; in the other branch deploy the bundle
reference bare.  `juju deploy` and `charm pull` failures are uncaught. -/
def deployStep (R : Ev → Bool) (i : JujuIntent) (fp : String) :
    List Ev × RunStatus :=
  if startsWithCs i.bundle then
    let pargs := [i.bundle]
      ++ (if !i.bundleChannel.isEmpty then
            ["--channel", i.bundleChannel, fp] else [])
    let p := Ev.pull pargs
    if R p then
      let dargs := ["-m", fmtControllerModel i, fp ++ "/bundle.yaml"]
        ++ (if !i.overlay.isEmpty then ["--overlay", i.overlay] else [])
        ++ (if !i.charmChannel.isEmpty then
              ["--channel", i.charmChannel] else [])
      let d := Ev.deploy dargs
      if R d then ([p, d], RunStatus.ok)
      else ([p, d], RunStatus.shErrorReturnCode "juju deploy failed")
    else ([p], RunStatus.shErrorReturnCode "charm pull failed")
  else
    let d := Ev.deploy ["-m", fmtControllerModel i, i.bundle]
    if R d then ([d], RunStatus.ok)
    else ([d], RunStatus.shErrorReturnCode "juju deploy failed")

/-- `_wait` of the package variant: entered unconditionally (recorded as
`Ev.waitStep`); the `juju_wait` call carries the literal `-t14400`
timeout argument and its failure is uncaught. -/
def waitPhase (R : Ev → Bool) (i : JujuIntent) : List Ev × RunStatus :=
  if i.deployWait then
    let w := Ev.waitOp (fmtControllerModel i) 14400
    if R w then ([Ev.waitStep, w], RunStatus.ok)
    else ([Ev.waitStep, w], RunStatus.shErrorReturnCode "juju_wait failed")
  else ([Ev.waitStep], RunStatus.ok)

/-- `process` of the package variant: bootstrap unless `deploy.reuse`,
then — when `deploy` is truthy — `_deploy`, `_wait`, the config loop
over `config.set`, and a second `_wait`. -/
def process (R : Ev → Bool) (i : JujuIntent) (fp : String) :
    List Ev × RunStatus :=
  andThen (if !i.reuse && i.bootstrap then bootstrapPhase R i
           else ([], RunStatus.ok))
    (if i.deploy then
      andThen (deployStep R i fp)
        (andThen (waitPhase R i)
          (andThen (configLoop R (fmtControllerModel i) i.configSets)
            (waitPhase R i)))
     else ([], RunStatus.ok))

end OgcJujuInit

/-! ### Helper lemmas about the phases of `OgcJuju` -/

namespace OgcJuju

theorem addModelStep_fst (R : Ev → Bool) (i : JujuIntent) :
    (addModelStep R i).1 = [Ev.addModel (addModelArgs i)] := by
  simp only [addModelStep]
  split <;> rfl

theorem waitPhase_fst (R : Ev → Bool) (i : JujuIntent) :
    (waitPhase R i).1 =
      Ev.waitStep ::
        (if i.deployWait then
          [Ev.waitOp (fmtControllerModel i)
            (if i.deployTimeout != 0 then i.deployTimeout else 7200)]
         else []) := by
  simp only [waitPhase]
  by_cases h : i.deployWait
  · simp only [h, if_true]
    split <;> split <;> rfl
  · simp [h]

theorem bootstrapPhase_ok_fst (R : Ev → Bool) (i : JujuIntent)
    (h : (bootstrapPhase R i).2 = RunStatus.ok) :
    (bootstrapPhase R i).1 =
      (if i.replaceController then [Ev.teardown i.controller] else [])
        ++ Ev.bootstrap (bootstrapArgs i)
          :: (if i.disableAddModel then []
              else [Ev.addModel (addModelArgs i)]) := by
  simp only [bootstrapPhase] at h ⊢
  by_cases hb : R (Ev.bootstrap (bootstrapArgs i))
  · simp only [hb, if_true] at h ⊢
    by_cases hd : i.disableAddModel
    · simp [hd]
    · simp only [hd, if_false] at h ⊢
      simp [addModelStep_fst]
  · simp [hb] at h

theorem bootstrapPhase_head (R : Ev → Bool) (i : JujuIntent)
    (hrc : i.replaceController = true) :
    ∃ rest, (bootstrapPhase R i).1 =
      Ev.teardown i.controller :: Ev.bootstrap (bootstrapArgs i) :: rest := by
  simp only [bootstrapPhase, hrc, if_true]
  by_cases hb : R (Ev.bootstrap (bootstrapArgs i))
  · simp only [hb, if_true]
    by_cases hd : i.disableAddModel
    · exact ⟨[], by simp [hd]⟩
    · exact ⟨(addModelStep R i).1, by simp [hd]⟩
  · exact ⟨[], by simp [hb]⟩

theorem ite_same_fst {α β : Type} (c : Prop) [Decidable c] (x : α) (s t : β) :
    (if c then (x, s) else (x, t)).1 = x := by
  split <;> rfl

theorem deployStep_ok_fst (R : Ev → Bool) (i : JujuIntent) (fp ovp : String)
    (h : (deployStep R i fp ovp).2 = RunStatus.ok) :
    (deployStep R i fp ovp).1 =
      (if !i.charm.isEmpty then ([] : List Ev)
       else if !i.bundle.isEmpty && startsWithCs i.bundle then
         [Ev.pull (pullArgs i fp)]
       else []) ++ [Ev.deploy (deployCmdArgs i fp ovp)] := by
  simp only [deployStep] at h ⊢
  by_cases hc : (!i.charm.isEmpty) = true <;>
    by_cases hcs : (!i.bundle.isEmpty && startsWithCs i.bundle) = true <;>
      by_cases hp : R (Ev.pull (pullArgs i fp)) = true <;>
        by_cases hd : R (Ev.deploy (deployCmdArgs i fp ovp)) = true <;>
          simp_all
  all_goals (split <;> simp_all)

theorem mem_deployStep (R : Ev → Bool) (i : JujuIntent) (fp ovp : String)
    (e : Ev) (h : e ∈ (deployStep R i fp ovp).1) :
    (∃ a, e = Ev.pull a) ∨ (∃ a, e = Ev.deploy a) := by
  simp only [deployStep] at h
  split at h
  · split at h <;> simp at h <;> exact Or.inr ⟨_, h⟩
  · split at h
    · split at h
      · split at h <;> simp at h <;>
          rcases h with h | h
        · exact Or.inl ⟨_, h⟩
        · exact Or.inr ⟨_, h⟩
        · exact Or.inl ⟨_, h⟩
        · exact Or.inr ⟨_, h⟩
      · simp at h
        exact Or.inl ⟨_, h⟩
    · split at h <;> simp at h <;> exact Or.inr ⟨_, h⟩

theorem configLoop_sub (R : Ev → Bool) (cm : String)
    (l : List (String × String)) (e : Ev) (h : e ∈ (configLoop R cm l).1) :
    ∃ a s, e = Ev.configSet cm a s := by
  induction l with
  | nil => simp [configLoop] at h
  | cons p rest ih =>
      obtain ⟨a, s⟩ := p
      simp only [configLoop] at h
      split at h
      · simp at h
        rcases h with h | h
        · exact ⟨a, s, h⟩
        · exact ih h
      · simp at h
        exact ⟨a, s, h⟩

theorem configLoop_ok_fst (R : Ev → Bool) (cm : String)
    (l : List (String × String)) (h : (configLoop R cm l).2 = RunStatus.ok) :
    (configLoop R cm l).1 = l.map fun p => Ev.configSet cm p.1 p.2 := by
  induction l with
  | nil => simp [configLoop]
  | cons p rest ih =>
      obtain ⟨a, s⟩ := p
      simp only [configLoop] at h ⊢
      split at h
      · simp_all
      · simp at h

theorem mem_waitPhase (R : Ev → Bool) (i : JujuIntent) (e : Ev)
    (h : e ∈ (waitPhase R i).1) :
    e = Ev.waitStep ∨ ∃ c t, e = Ev.waitOp c t := by
  rw [waitPhase_fst] at h
  rcases List.mem_cons.mp h with h | h
  · exact Or.inl h
  · right
    split at h <;> simp at h
    exact ⟨_, _, h⟩

theorem addModelStep_ok (R : Ev → Bool) (i : JujuIntent)
    (h : (addModelStep R i).2 = RunStatus.ok) :
    R (Ev.addModel (addModelArgs i)) = true := by
  by_cases hra : R (Ev.addModel (addModelArgs i)) = true
  · exact hra
  · simp [addModelStep, hra] at h

theorem deploySection_ok (R : Ev → Bool) (i : JujuIntent) (fp ovp : String)
    (h : (deploySection R i fp ovp).2 = RunStatus.ok) :
    (i.disableAddModel = true → R (Ev.addModel (addModelArgs i)) = true) ∧
    (deployStep R i fp ovp).2 = RunStatus.ok ∧
    (configLoop R (fmtControllerModel i) i.configSets).2 = RunStatus.ok ∧
    (deploySection R i fp ovp).1 =
      (if i.disableAddModel then [Ev.addModel (addModelArgs i)] else [])
        ++ (deployStep R i fp ovp).1
        ++ (configLoop R (fmtControllerModel i) i.configSets).1
        ++ (waitPhase R i).1 := by
  simp only [deploySection] at h ⊢
  obtain ⟨ha, h2, e1⟩ := andThen_ok _ _ h
  obtain ⟨hds, h3, e2⟩ := andThen_ok _ _ h2
  obtain ⟨hcl, _, e3⟩ := andThen_ok _ _ h3
  refine ⟨?_, hds, hcl, ?_⟩
  · intro hd
    rw [hd] at ha
    simp at ha
    exact addModelStep_ok R i ha
  · rw [e1, e2, e3]
    have hafst : (if i.disableAddModel then addModelStep R i
        else ([], RunStatus.ok)).1 =
        (if i.disableAddModel then [Ev.addModel (addModelArgs i)] else []) := by
      by_cases hd : i.disableAddModel = true <;>
        simp [hd, addModelStep_fst]
    rw [hafst]
    simp [List.append_assoc]

theorem process_ok (R : Ev → Bool) (i : JujuIntent) (fp ovp : String)
    (hr : i.bootstrapRun.isEmpty = true)
    (h : (process R i fp ovp).2 = RunStatus.ok) :
    ((!i.reuse && i.bootstrap) = true → (bootstrapPhase R i).2 = RunStatus.ok) ∧
    (i.deploy = true → (deploySection R i fp ovp).2 = RunStatus.ok) ∧
    (process R i fp ovp).1 =
      (if !i.reuse && i.bootstrap then (bootstrapPhase R i).1 else [])
        ++ (if i.deploy then (deploySection R i fp ovp).1 else [])
        ++ (if i.teardown then [Ev.teardown i.controller] else []) := by
  simp only [process, hr, Bool.not_true, Bool.false_eq_true, if_false] at h ⊢
  obtain ⟨hb, h2, e1⟩ := andThen_ok _ _ h
  obtain ⟨hd, _, e2⟩ := andThen_ok _ _ h2
  refine ⟨?_, ?_, ?_⟩
  · intro hc
    rw [hc] at hb
    simpa using hb
  · intro hc
    rw [hc] at hd
    simpa using hd
  · rw [e1, e2]
    have hbfst : (if !i.reuse && i.bootstrap then bootstrapPhase R i
        else ([], RunStatus.ok)).1 =
        (if !i.reuse && i.bootstrap then (bootstrapPhase R i).1 else []) := by
      by_cases hc : (!i.reuse && i.bootstrap) = true <;> simp [hc]
    have hdfst : (if i.deploy then deploySection R i fp ovp
        else ([], RunStatus.ok)).1 =
        (if i.deploy then (deploySection R i fp ovp).1 else []) := by
      by_cases hc : i.deploy = true <;> simp [hc]
    rw [hbfst, hdfst]
    simp [List.append_assoc]

theorem process_boot_pre (R : Ev → Bool) (i : JujuIntent) (fp ovp : String)
    (hr : i.bootstrapRun.isEmpty = true)
    (hc : (!i.reuse && i.bootstrap) = true) :
    ∃ rest, (process R i fp ovp).1 = (bootstrapPhase R i).1 ++ rest := by
  simp only [process, hr, Bool.not_true, Bool.false_eq_true, if_false, hc,
    if_true]
  exact andThen_fst_pre _ _

theorem mem_bootstrapPhase (R : Ev → Bool) (i : JujuIntent) (e : Ev)
    (h : e ∈ (bootstrapPhase R i).1) :
    e = Ev.teardown i.controller ∨ e = Ev.bootstrap (bootstrapArgs i) ∨
      e = Ev.addModel (addModelArgs i) := by
  simp only [bootstrapPhase, addModelStep] at h
  by_cases hrc : i.replaceController = true <;>
    by_cases hb : R (Ev.bootstrap (bootstrapArgs i)) = true <;>
      by_cases hd : i.disableAddModel = true <;>
        by_cases hra : R (Ev.addModel (addModelArgs i)) = true <;>
          simp_all <;> tauto

theorem mem_addModelStep (R : Ev → Bool) (i : JujuIntent) (e : Ev)
    (h : e ∈ (addModelStep R i).1) : e = Ev.addModel (addModelArgs i) := by
  rw [addModelStep_fst] at h
  simpa using h

end OgcJuju

/-! ### Helper lemmas about the phases of `OgcJujuInit` -/

namespace OgcJujuInit

theorem initWaitPhase_fst (R : Ev → Bool) (i : JujuIntent) :
    (waitPhase R i).1 =
      Ev.waitStep ::
        (if i.deployWait then [Ev.waitOp (fmtControllerModel i) 14400]
         else []) := by
  simp only [waitPhase]
  by_cases h : i.deployWait
  · simp only [h, if_true]
    split <;> rfl
  · simp [h]

theorem bootstrapPhase_fst (R : Ev → Bool) (i : JujuIntent) :
    (bootstrapPhase R i).1 =
      Ev.bootstrap (["bootstrap", i.cloud, i.controller]
          ++ (if !i.bootstrapConstraints.isEmpty then
                ["--bootstrap-constraints", i.bootstrapConstraints] else [])
          ++ (if i.bootstrapDebug then ["--debug"] else []))
        :: (if R (Ev.bootstrap (["bootstrap", i.cloud, i.controller]
              ++ (if !i.bootstrapConstraints.isEmpty then
                    ["--bootstrap-constraints", i.bootstrapConstraints]
                  else [])
              ++ (if i.bootstrapDebug then ["--debug"] else [])))
              && !i.disableAddModel then
            [Ev.addModel ["-c", i.controller, i.model, i.cloud]]
          else []) := by
  simp only [bootstrapPhase]
  by_cases hb : R (Ev.bootstrap (["bootstrap", i.cloud, i.controller]
      ++ (if !i.bootstrapConstraints.isEmpty then
            ["--bootstrap-constraints", i.bootstrapConstraints] else [])
      ++ (if i.bootstrapDebug then ["--debug"] else []))) = true <;>
    by_cases hd : i.disableAddModel = true <;>
      by_cases hra : R (Ev.addModel ["-c", i.controller, i.model, i.cloud])
          = true <;>
        simp_all

theorem deployStep_fst (R : Ev → Bool) (i : JujuIntent) (fp : String) :
    (deployStep R i fp).1 =
      if startsWithCs i.bundle then
        Ev.pull ([i.bundle]
            ++ (if !i.bundleChannel.isEmpty then
                  ["--channel", i.bundleChannel, fp] else []))
          :: (if R (Ev.pull ([i.bundle]
                ++ (if !i.bundleChannel.isEmpty then
                      ["--channel", i.bundleChannel, fp] else []))) then
              [Ev.deploy (["-m", fmtControllerModel i, fp ++ "/bundle.yaml"]
                ++ (if !i.overlay.isEmpty then ["--overlay", i.overlay]
                    else [])
                ++ (if !i.charmChannel.isEmpty then
                      ["--channel", i.charmChannel] else []))]
            else [])
      else [Ev.deploy ["-m", fmtControllerModel i, i.bundle]] := by
  simp only [deployStep]
  by_cases hcs : startsWithCs i.bundle = true <;>
    by_cases hp : R (Ev.pull ([i.bundle]
        ++ (if !i.bundleChannel.isEmpty then
              ["--channel", i.bundleChannel, fp] else []))) = true <;>
      simp_all [OgcJuju.ite_same_fst]

end OgcJujuInit

namespace OgcJuju

theorem mem_deploySection (R : Ev → Bool) (i : JujuIntent) (fp ovp : String)
    (e : Ev) (h : e ∈ (deploySection R i fp ovp).1) :
    (i.disableAddModel = true ∧ e = Ev.addModel (addModelArgs i)) ∨
    (∃ a, e = Ev.pull a) ∨ (∃ a, e = Ev.deploy a) ∨
    (∃ c a s, e = Ev.configSet c a s) ∨ e = Ev.waitStep ∨
    (∃ c t, e = Ev.waitOp c t) := by
  simp only [deploySection] at h
  rcases mem_andThen _ _ _ h with h | h
  · by_cases hd : i.disableAddModel = true
    · rw [hd] at h
      simp only [if_true] at h
      exact Or.inl ⟨hd, mem_addModelStep R i e (by simpa using h)⟩
    · simp [hd] at h
  · rcases mem_andThen _ _ _ h with h | h
    · rcases mem_deployStep R i fp ovp e h with h | h
      · exact Or.inr (Or.inl h)
      · exact Or.inr (Or.inr (Or.inl h))
    · rcases mem_andThen _ _ _ h with h | h
      · obtain ⟨a, s, h⟩ := configLoop_sub _ _ _ _ h
        exact Or.inr (Or.inr (Or.inr (Or.inl ⟨_, a, s, h⟩)))
      · rcases mem_waitPhase R i e h with h | ⟨c, t, h⟩
        · exact Or.inr (Or.inr (Or.inr (Or.inr (Or.inl h))))
        · exact Or.inr (Or.inr (Or.inr (Or.inr (Or.inr ⟨c, t, h⟩))))

end OgcJuju

/-! ### Event classifiers used in the claim statements -/

/-- Is the event an add-model operation? -/
def isAddModelEv : Ev → Bool
  | Ev.addModel _ => true
  | _ => false

/-- Is the event a deploy operation? -/
def isDeployEv : Ev → Bool
  | Ev.deploy _ => true
  | _ => false

/-- Is the event a bootstrap operation? -/
def isBootstrapEv : Ev → Bool
  | Ev.bootstrap _ => true
  | _ => false

/-- Is the event a config-set operation? -/
def isCfgEv : Ev → Bool
  | Ev.configSet _ _ _ => true
  | _ => false

/-! ### The claims -/

/-- C1: for every intent in which both a bundle target and a charm target
are set, the conflict check fails with the configuration-conflict error,
and this happens before any external operation: the run issues zero
CommandRunner operations (the trace is empty). -/
theorem C1_conflict_blocks_run (R : Ev → Bool) (i : OgcJuju.JujuIntent)
    (fp ovp : String) (hb : i.bundle.isEmpty = false)
    (hc : i.charm.isEmpty = false) :
    OgcJuju.run R i fp ovp =
      ([], RunStatus.specConfigError
        "Can not have both bundle and charm defined in deployment, must choose one or the other.") := by
  simp [OgcJuju.run, OgcJuju.conflicts, hb, hc]

theorem C1_conflict_blocks_run_witness :
    OgcJuju.run (fun _ => true)
      { cloud := "aws", controller := "c1", model := "m1",
        bootstrap := true, deploy := true,
        bundle := "b.yaml", charm := "mycharm" } "/tmp/u" "/tmp/ov" =
      ([], RunStatus.specConfigError
        "Can not have both bundle and charm defined in deployment, must choose one or the other.") :=
  C1_conflict_blocks_run (fun _ => true) _ "/tmp/u" "/tmp/ov"
    (by decide) (by decide)

theorem process_override_fst (R : Ev → Bool) (i : OgcJuju.JujuIntent)
    (fp ovp : String) (h : i.bootstrapRun.isEmpty = false) :
    (OgcJuju.process R i fp ovp).1 = [Ev.runOverride i.bootstrapRun] := by
  simp [OgcJuju.process, h, OgcJuju.ite_same_fst]

/-- C2: for every intent with `bootstrap.run` set, `process` executes the
override as a single external operation and stops: the whole trace is
exactly the one run-override event, whatever the values of every other
flag and whatever the CommandRunner returns. -/
theorem C2_override_single_op (R : Ev → Bool) (i : OgcJuju.JujuIntent)
    (fp ovp : String) (h : i.bootstrapRun.isEmpty = false) :
    (OgcJuju.process R i fp ovp).1 = [Ev.runOverride i.bootstrapRun] :=
  process_override_fst R i fp ovp h

theorem C2_override_single_op_witness :
    (OgcJuju.process (fun _ => true)
      { cloud := "aws", controller := "c1", model := "m1",
        bootstrapRun := "juju bootstrap myway", bootstrap := true,
        deploy := true, bundle := "b.yaml", deployWait := true,
        teardown := true } "/tmp/u" "/tmp/ov").1 =
      [Ev.runOverride "juju bootstrap myway"] :=
  C2_override_single_op (fun _ => true) _ "/tmp/u" "/tmp/ov" (by decide)

/-- C3: evaluation of the code at the failing input.  For a charmstore
bundle (`cs:` target) with no channel set, the pull operation is issued
with the bundle reference as its only argument — the freshly generated
unique local path `/tmp/u` is NOT passed (it is appended only inside the
channel branch) — and yet the subsequent deploy targets
`/tmp/u/bundle.yaml` under that very path.  This contradicts the claim
(and spec table `pull <bundleRef> [--channel C] <uniqueLocalPath>`),
which say the path is always the last pull argument. -/
theorem C3_pull_omits_path_without_channel :
    OgcJuju.process (fun _ => true)
      { cloud := "aws", controller := "c1", model := "m1",
        deploy := true, bundle := "cs:~org/bundle" } "/tmp/u" "/tmp/ov" =
      ([Ev.pull ["cs:~org/bundle"],
        Ev.deploy ["-m", "c1:m1", "/tmp/u/bundle.yaml"], Ev.waitStep],
       RunStatus.ok) := by
  decide

/-- C5: for every intent (without run override) with `replaceController`,
`bootstrapRequested` true and `reuse` false, the trace starts with the
teardown operation immediately followed by the bootstrap operation — for
EVERY CommandRunner oracle `R`, in particular for oracles under which the
teardown operation fails, since `_teardown` catches the failure and only
logs it; so a failing teardown never prevents the bootstrap attempt. -/
theorem C5_teardown_precedes_bootstrap (R : Ev → Bool)
    (i : OgcJuju.JujuIntent) (fp ovp : String)
    (hr : i.bootstrapRun.isEmpty = true) (hrc : i.replaceController = true)
    (hb : i.bootstrap = true) (hre : i.reuse = false) :
    ∃ rest, (OgcJuju.process R i fp ovp).1 =
      Ev.teardown i.controller :: Ev.bootstrap (OgcJuju.bootstrapArgs i)
        :: rest := by
  have hc : (!i.reuse && i.bootstrap) = true := by simp [hre, hb]
  obtain ⟨r1, e1⟩ := OgcJuju.process_boot_pre R i fp ovp hr hc
  obtain ⟨r2, e2⟩ := OgcJuju.bootstrapPhase_head R i hrc
  exact ⟨r2 ++ r1, by rw [e1, e2]; simp⟩

theorem C5_teardown_precedes_bootstrap_witness :
    ∃ rest,
      (OgcJuju.process
        (fun e => match e with
          | Ev.teardown _ => false
          | _ => true)
        { cloud := "aws", controller := "c1", model := "m1",
          bootstrap := true, replaceController := true }
        "/tmp/u" "/tmp/ov").1 =
      Ev.teardown "c1"
        :: Ev.bootstrap (OgcJuju.bootstrapArgs
            { cloud := "aws", controller := "c1", model := "m1",
              bootstrap := true, replaceController := true }) :: rest :=
  C5_teardown_precedes_bootstrap _ _ "/tmp/u" "/tmp/ov"
    (by decide) (by decide) (by decide) (by decide)

/-- C7, counterexample to the claim as stated: an intent with overlay,
channel, constraints, series and force ALL set, but whose deploy target
is a charm, produces a deploy argument list WITHOUT the overlay flag
(`_deploy` appends the overlay only when a bundle is set), so the
universally quantified claim "the argument list contains the overlay
flag, then ..." fails at this input. -/
theorem C7_counterexample :
    OgcJuju.deployCmdArgs
        { cloud := "aws", controller := "c1", model := "m1",
          deploy := true, charm := "mycharm", overlay := "applications:",
          channel := "edge", constraints := "mem=4G", series := "focal",
          force := true } "/tmp/u" "/tmp/ov" =
      ["-m", "c1:m1", "mycharm", "--channel", "edge", "--constraints",
       "'mem=4G'", "--series", "focal", "--force"] ∧
    "--overlay" ∉
      (["-m", "c1:m1", "mycharm", "--channel", "edge", "--constraints",
        "'mem=4G'", "--series", "focal", "--force"] : List String) := by
  constructor
  · decide
  · decide

/-- C7 (amended): for every intent whose deploy target is a bundle
(`bundle` set, `charm` unset) with overlay, channel, constraints, series
and force all set, the deploy argument list after the three-element
target head is exactly the overlay flag, then the channel flag, then the
constraints flag (value single-quoted), then the series flag, then the
force flag, in that order.  (For a charm target the overlay flag is
omitted — see the counterexample and C10.) -/
theorem C7_deploy_flag_order (i : OgcJuju.JujuIntent) (fp ovp : String)
    (hb : i.bundle.isEmpty = false) (hc : i.charm.isEmpty = true)
    (hov : i.overlay.isEmpty = false) (hch : i.channel.isEmpty = false)
    (hcon : i.constraints.isEmpty = false) (hs : i.series.isEmpty = false)
    (hf : i.force = true) :
    (OgcJuju.deployCmdArgs i fp ovp).drop 3 =
      ["--overlay", ovp, "--channel", i.channel,
       "--constraints", "'" ++ i.constraints ++ "'",
       "--series", i.series, "--force"] := by
  simp only [OgcJuju.deployCmdArgs, OgcJuju.overlayMaterialized,
    hb, hc, hov, hch, hcon, hs, hf]
  by_cases hcs : startsWithCs i.bundle = true <;> simp [hcs]

theorem C7_deploy_flag_order_witness :
    (OgcJuju.deployCmdArgs
      { cloud := "aws", controller := "c1", model := "m1",
        deploy := true, bundle := "cs:~org/bundle",
        overlay := "applications:", channel := "edge",
        constraints := "mem=4G", series := "focal", force := true }
      "/tmp/u" "/tmp/ov").drop 3 =
      ["--overlay", "/tmp/ov", "--channel", "edge",
       "--constraints", "'" ++ "mem=4G" ++ "'",
       "--series", "focal", "--force"] :=
  C7_deploy_flag_order _ "/tmp/u" "/tmp/ov" (by decide) (by decide)
    (by decide) (by decide) (by decide) (by decide) (by decide)

/-- C10: for every intent whose deploy target is a charm (`charm` set,
`bundle` unset, as enforced by the conflict rule) a non-empty overlay is
silently ignored: no overlay temp file is materialized, and the deploy
argument list is exactly the charm target head followed by the channel,
constraints, series and force appends — no overlay flag. -/
theorem C10_charm_ignores_overlay (i : OgcJuju.JujuIntent)
    (fp ovp : String) (hch : i.charm.isEmpty = false)
    (hb : i.bundle.isEmpty = true) (hov : i.overlay.isEmpty = false) :
    OgcJuju.overlayMaterialized i = false ∧
    OgcJuju.deployCmdArgs i fp ovp =
      ["-m", OgcJuju.fmtControllerModel i, i.charm]
        ++ (if !i.channel.isEmpty then ["--channel", i.channel] else [])
        ++ (if !i.constraints.isEmpty then
              ["--constraints", "'" ++ i.constraints ++ "'"] else [])
        ++ (if !i.series.isEmpty then ["--series", i.series] else [])
        ++ (if i.force then ["--force"] else []) := by
  constructor
  · simp [OgcJuju.overlayMaterialized, hb]
  · simp [OgcJuju.deployCmdArgs, OgcJuju.overlayMaterialized, hb, hch]

theorem C10_charm_ignores_overlay_witness :
    OgcJuju.overlayMaterialized
      { cloud := "aws", controller := "c1", model := "m1",
        deploy := true, charm := "mycharm",
        overlay := "applications:", channel := "edge" } = false ∧
    OgcJuju.deployCmdArgs
      { cloud := "aws", controller := "c1", model := "m1",
        deploy := true, charm := "mycharm",
        overlay := "applications:", channel := "edge" } "/tmp/u" "/tmp/ov" =
      ["-m", OgcJuju.fmtControllerModel
          { cloud := "aws", controller := "c1", model := "m1",
            deploy := true, charm := "mycharm",
            overlay := "applications:", channel := "edge" }, "mycharm"]
        ++ ["--channel", "edge"] ++ [] ++ [] ++ [] :=
  C10_charm_ignores_overlay _ "/tmp/u" "/tmp/ov"
    (by decide) (by decide) (by decide)

/-- C9: for every intent with `reuse` true, the bootstrap phase is
skipped entirely: no bootstrap operation is ever issued (under any
oracle, any outcome), no teardown operation is issued unless the
separate `teardown` option requests one, and no add-model operation is
issued unless the MaybeAddModel step (`disableAddModel` with a deploy)
issues its own. -/
theorem C9_reuse_skips_bootstrap (R : Ev → Bool) (i : OgcJuju.JujuIntent)
    (fp ovp : String) (hre : i.reuse = true) :
    (∀ a, Ev.bootstrap a ∉ (OgcJuju.process R i fp ovp).1) ∧
    (i.teardown = false →
      ∀ c, Ev.teardown c ∉ (OgcJuju.process R i fp ovp).1) ∧
    (i.disableAddModel = false →
      ∀ a, Ev.addModel a ∉ (OgcJuju.process R i fp ovp).1) := by
  by_cases hrun : i.bootstrapRun.isEmpty = false
  · rw [process_override_fst R i fp ovp hrun]
    refine ⟨fun a h => by simp at h, fun _ c h => by simp at h,
      fun _ a h => by simp at h⟩
  · have hrun' : i.bootstrapRun.isEmpty = true := by
      cases h : i.bootstrapRun.isEmpty
      · exact absurd h hrun
      · rfl
    have hskip : (!i.reuse && i.bootstrap) = false := by simp [hre]
    have key : ∀ e, e ∈ (OgcJuju.process R i fp ovp).1 →
        e ∈ (OgcJuju.deploySection R i fp ovp).1 ∨
        (i.teardown = true ∧ e = Ev.teardown i.controller) := by
      intro e he
      simp only [OgcJuju.process, hrun', Bool.not_true, hskip] at he
      simp only [Bool.false_eq_true, if_false] at he
      rcases mem_andThen _ _ _ he with h | h
      · simp [andThen] at h
      · rcases mem_andThen _ _ _ h with h | h
        · by_cases hd : i.deploy = true
          · rw [hd] at h
            simp only [if_true] at h
            exact Or.inl h
          · simp [hd] at h
        · by_cases ht : i.teardown = true
          · rw [ht] at h
            simp only [if_true] at h
            simp at h
            exact Or.inr ⟨ht, h⟩
          · simp [ht] at h
    refine ⟨?_, ?_, ?_⟩
    · intro a h
      rcases key _ h with h | ⟨_, h⟩
      · rcases OgcJuju.mem_deploySection R i fp ovp _ h with
          ⟨_, h⟩ | ⟨a, h⟩ | ⟨a, h⟩ | ⟨c, x, s, h⟩ | h | ⟨c, t, h⟩ <;>
          simp at h
      · simp at h
    · intro ht c h
      rcases key _ h with h | ⟨ht', _⟩
      · rcases OgcJuju.mem_deploySection R i fp ovp _ h with
          ⟨_, h⟩ | ⟨a, h⟩ | ⟨a, h⟩ | ⟨cc, x, s, h⟩ | h | ⟨cc, t, h⟩ <;>
          simp at h
      · rw [ht] at ht'
        exact absurd ht' (by simp)
    · intro hd a h
      rcases key _ h with h | ⟨_, h⟩
      · rcases OgcJuju.mem_deploySection R i fp ovp _ h with
          ⟨hd', _⟩ | ⟨x, h⟩ | ⟨x, h⟩ | ⟨c, x, s, h⟩ | h | ⟨c, t, h⟩ <;>
          first
            | (rw [hd] at hd'; exact absurd hd' (by simp))
            | simp at h
      · simp at h

theorem C9_reuse_skips_bootstrap_witness :
    (∀ a, Ev.bootstrap a ∉
      (OgcJuju.process (fun _ => true)
        { cloud := "aws", controller := "c1", model := "m1",
          bootstrap := true, reuse := true, deploy := true,
          bundle := "b.yaml", replaceController := true }
        "/tmp/u" "/tmp/ov").1) ∧
    (({ cloud := "aws", controller := "c1", model := "m1",
        bootstrap := true, reuse := true, deploy := true,
        bundle := "b.yaml", replaceController := true }
          : OgcJuju.JujuIntent).teardown = false →
      ∀ c, Ev.teardown c ∉
        (OgcJuju.process (fun _ => true)
          { cloud := "aws", controller := "c1", model := "m1",
            bootstrap := true, reuse := true, deploy := true,
            bundle := "b.yaml", replaceController := true }
          "/tmp/u" "/tmp/ov").1) ∧
    (({ cloud := "aws", controller := "c1", model := "m1",
        bootstrap := true, reuse := true, deploy := true,
        bundle := "b.yaml", replaceController := true }
          : OgcJuju.JujuIntent).disableAddModel = false →
      ∀ a, Ev.addModel a ∉
        (OgcJuju.process (fun _ => true)
          { cloud := "aws", controller := "c1", model := "m1",
            bootstrap := true, reuse := true, deploy := true,
            bundle := "b.yaml", replaceController := true }
          "/tmp/u" "/tmp/ov").1) :=
  C9_reuse_skips_bootstrap (fun _ => true) _ "/tmp/u" "/tmp/ov" (by decide)

/-! ### Counting and filtering helpers -/

theorem count_andThen (a : Ev) (x y : List Ev × RunStatus) :
    (andThen x y).1.count a =
      x.1.count a +
        (if x.2 = RunStatus.ok then y.1.count a else 0) := by
  cases hx : x.2 <;> simp [andThen, hx]

theorem snd_andThen (x y : List Ev × RunStatus) :
    (andThen x y).2 = (if x.2 = RunStatus.ok then y.2 else x.2) := by
  cases hx : x.2 <;> simp [andThen, hx]

theorem filter_andThen (p : Ev → Bool) (x y : List Ev × RunStatus) :
    (andThen x y).1.filter p =
      x.1.filter p ++
        (if x.2 = RunStatus.ok then y.1.filter p else []) := by
  cases hx : x.2 <;> simp [andThen, hx]

namespace OgcJuju

theorem count_bootstrapPhase_eq_zero (R : Ev → Bool) (i : JujuIntent)
    (a : Ev) (ha1 : ∀ c, a ≠ Ev.teardown c)
    (ha2 : ∀ x, a ≠ Ev.bootstrap x) (ha3 : ∀ x, a ≠ Ev.addModel x) :
    (bootstrapPhase R i).1.count a = 0 :=
  List.count_eq_zero.mpr fun hm => by
    rcases mem_bootstrapPhase R i a hm with h | h | h
    exacts [ha1 _ h, ha2 _ h, ha3 _ h]

theorem count_deployStep_eq_zero (R : Ev → Bool) (i : JujuIntent)
    (fp ovp : String) (a : Ev) (ha1 : ∀ x, a ≠ Ev.pull x)
    (ha2 : ∀ x, a ≠ Ev.deploy x) :
    (deployStep R i fp ovp).1.count a = 0 :=
  List.count_eq_zero.mpr fun hm => by
    rcases mem_deployStep R i fp ovp a hm with ⟨x, h⟩ | ⟨x, h⟩
    exacts [ha1 x h, ha2 x h]

theorem count_waitPhase_waitStep (R : Ev → Bool) (i : JujuIntent) :
    (waitPhase R i).1.count Ev.waitStep = 1 := by
  rw [waitPhase_fst]
  by_cases h : i.deployWait = true <;> simp [h, List.count_cons]

theorem count_waitPhase_waitOp (R : Ev → Bool) (i : JujuIntent) :
    (waitPhase R i).1.count
        (Ev.waitOp (fmtControllerModel i)
          (if i.deployTimeout != 0 then i.deployTimeout else 7200)) =
      (if i.deployWait then 1 else 0) := by
  rw [waitPhase_fst]
  by_cases h : i.deployWait = true <;> simp [h, List.count_cons]

end OgcJuju

theorem count_configLoop_eq_zero (R : Ev → Bool) (cm : String)
    (l : List (String × String)) (a : Ev)
    (ha : ∀ c x s, a ≠ Ev.configSet c x s) :
    (configLoop R cm l).1.count a = 0 :=
  List.count_eq_zero.mpr fun hm => by
    obtain ⟨x, s, h⟩ := OgcJuju.configLoop_sub R cm l a hm
    exact ha cm x s h

namespace OgcJujuInit

theorem count_ite (a : Ev) (c : Prop) [Decidable c] (l m : List Ev) :
    (if c then l else m).count a = if c then l.count a else m.count a :=
  apply_ite (List.count a) c l m

theorem count_bootstrapPhase_waitStep (R : Ev → Bool) (i : JujuIntent) :
    (bootstrapPhase R i).1.count Ev.waitStep = 0 := by
  rw [bootstrapPhase_fst]
  simp [count_ite, List.count_cons]

theorem count_deployStep_waitStep (R : Ev → Bool) (i : JujuIntent)
    (fp : String) :
    (deployStep R i fp).1.count Ev.waitStep = 0 := by
  rw [deployStep_fst]
  simp [count_ite, List.count_cons]

theorem initCount_waitPhase_waitStep (R : Ev → Bool) (i : JujuIntent) :
    (waitPhase R i).1.count Ev.waitStep = 1 := by
  rw [initWaitPhase_fst]
  by_cases h : i.deployWait = true <;> simp [h, List.count_cons]

end OgcJujuInit

namespace OgcJujuInit

theorem initProcess_ok (R : Ev → Bool) (i : JujuIntent) (fp : String)
    (hd : i.deploy = true) (h : (process R i fp).2 = RunStatus.ok) :
    (process R i fp).1 =
      (if !i.reuse && i.bootstrap then (bootstrapPhase R i).1 else [])
        ++ (deployStep R i fp).1 ++ (waitPhase R i).1
        ++ (configLoop R (fmtControllerModel i) i.configSets).1
        ++ (waitPhase R i).1 := by
  have hp : process R i fp =
      andThen (if !i.reuse && i.bootstrap then bootstrapPhase R i
               else ([], RunStatus.ok))
        (andThen (deployStep R i fp)
          (andThen (waitPhase R i)
            (andThen (configLoop R (fmtControllerModel i) i.configSets)
              (waitPhase R i)))) := by
    simp [process, hd]
  rw [hp] at h ⊢
  obtain ⟨hb, h2, e1⟩ := andThen_ok _ _ h
  obtain ⟨hds, h3, e2⟩ := andThen_ok _ _ h2
  obtain ⟨hw1, h4, e3⟩ := andThen_ok _ _ h3
  obtain ⟨hcl, hw2, e4⟩ := andThen_ok _ _ h4
  rw [e1, e2, e3, e4]
  have hbfst : (if !i.reuse && i.bootstrap then bootstrapPhase R i
      else ([], RunStatus.ok)).1 =
      (if !i.reuse && i.bootstrap then (bootstrapPhase R i).1 else []) := by
    by_cases hc : (!i.reuse && i.bootstrap) = true <;> simp [hc]
  rw [hbfst]
  simp [List.append_assoc]

end OgcJujuInit

/-- C4, counterexample to the claim as stated: in the current module
(`ogc_plugins_juju.py`), a successful run with deploy requested (here
even with the wait flag set, bootstrapped, all operations succeeding)
performs exactly ONE wait-step invocation — `process` calls `_wait` a
single time, after the config loop — not the two invocations the claim
asserts. -/
theorem C4_counterexample :
    ((OgcJuju.process (fun _ => true)
        { cloud := "aws", controller := "c1", model := "m1",
          bootstrap := true, deploy := true, bundle := "b.yaml",
          deployWait := true } "/tmp/u" "/tmp/ov").1.count Ev.waitStep = 1)
    ∧ ¬ ((OgcJuju.process (fun _ => true)
        { cloud := "aws", controller := "c1", model := "m1",
          bootstrap := true, deploy := true, bundle := "b.yaml",
          deployWait := true } "/tmp/u" "/tmp/ov").1.count Ev.waitStep
          = 2) := by
  constructor
  · decide
  · decide

/-- C4 (amended): in `ogc_plugins_juju.py`, every successful
deploy-requested run (no override) invokes the wait step exactly once —
after the configuration loop, even when the wait flag is false — and
issues the external wait operation inside it exactly when the wait flag
is set; the legacy `ogc_plugins_juju/__init__.py` instead invokes the
wait step exactly twice (after deploy and again after configuration). -/
theorem C4_wait_step_invocations :
    (∀ (R : Ev → Bool) (i : OgcJuju.JujuIntent) (fp ovp : String),
      i.bootstrapRun.isEmpty = true → i.deploy = true →
      (OgcJuju.process R i fp ovp).2 = RunStatus.ok →
      ((OgcJuju.process R i fp ovp).1.count Ev.waitStep = 1 ∧
       (OgcJuju.process R i fp ovp).1.count
           (Ev.waitOp (OgcJuju.fmtControllerModel i)
             (if i.deployTimeout != 0 then i.deployTimeout else 7200)) =
         (if i.deployWait then 1 else 0)))
    ∧
    (∀ (R : Ev → Bool) (j : OgcJujuInit.JujuIntent) (fp : String),
      j.deploy = true → (OgcJujuInit.process R j fp).2 = RunStatus.ok →
      (OgcJujuInit.process R j fp).1.count Ev.waitStep = 2) := by
  constructor
  · intro R i fp ovp hr hd hok
    have hp : OgcJuju.process R i fp ovp =
        andThen (if !i.reuse && i.bootstrap then OgcJuju.bootstrapPhase R i
                 else ([], RunStatus.ok))
          (andThen (if i.deploy then OgcJuju.deploySection R i fp ovp
                    else ([], RunStatus.ok))
            ((if i.teardown then [Ev.teardown i.controller] else []),
             RunStatus.ok)) := by
      simp [OgcJuju.process, hr]
    rw [hp] at hok ⊢
    obtain ⟨hb2, h2, e1⟩ := andThen_ok _ _ hok
    obtain ⟨hd2, _, e2⟩ := andThen_ok _ _ h2
    have hdsok : (OgcJuju.deploySection R i fp ovp).2 = RunStatus.ok := by
      rw [hd] at hd2
      simpa using hd2
    obtain ⟨_, hdeok, hclok, hdtr⟩ :=
      OgcJuju.deploySection_ok R i fp ovp hdsok
    have hdc : (if i.deploy then OgcJuju.deploySection R i fp ovp
        else ([], RunStatus.ok)).1 = (OgcJuju.deploySection R i fp ovp).1 := by
      rw [hd]
      simp
    rw [e1, e2, hdc, hdtr]
    have hbc : ∀ a : Ev, (∀ c, a ≠ Ev.teardown c) →
        (∀ x, a ≠ Ev.bootstrap x) → (∀ x, a ≠ Ev.addModel x) →
        (if !i.reuse && i.bootstrap then OgcJuju.bootstrapPhase R i
            else ([], RunStatus.ok)).1.count a = 0 := by
      intro a h1 h2' h3
      by_cases hc : (!i.reuse && i.bootstrap) = true
      · simp only [hc, if_true]
        exact OgcJuju.count_bootstrapPhase_eq_zero R i a h1 h2' h3
      · simp [hc]
    constructor
    · simp only [List.count_append]
      rw [hbc Ev.waitStep (by simp) (by simp) (by simp),
        OgcJuju.count_deployStep_eq_zero R i fp ovp Ev.waitStep
          (by simp) (by simp),
        count_configLoop_eq_zero R (OgcJuju.fmtControllerModel i)
          i.configSets Ev.waitStep (by simp),
        OgcJuju.count_waitPhase_waitStep]
      have ha : (if i.disableAddModel
          then [Ev.addModel (OgcJuju.addModelArgs i)]
          else []).count Ev.waitStep = 0 := by
        split <;> simp
      have ht : (if i.teardown then [Ev.teardown i.controller]
          else []).count Ev.waitStep = 0 := by
        split <;> simp
      rw [ha, ht]
    · simp only [List.count_append]
      rw [hbc (Ev.waitOp (OgcJuju.fmtControllerModel i)
            (if i.deployTimeout != 0 then i.deployTimeout else 7200))
          (by simp) (by simp) (by simp),
        OgcJuju.count_deployStep_eq_zero R i fp ovp
          (Ev.waitOp (OgcJuju.fmtControllerModel i)
            (if i.deployTimeout != 0 then i.deployTimeout else 7200))
          (by simp) (by simp),
        count_configLoop_eq_zero R (OgcJuju.fmtControllerModel i)
          i.configSets
          (Ev.waitOp (OgcJuju.fmtControllerModel i)
            (if i.deployTimeout != 0 then i.deployTimeout else 7200))
          (by simp),
        OgcJuju.count_waitPhase_waitOp]
      have ha : (if i.disableAddModel
          then [Ev.addModel (OgcJuju.addModelArgs i)]
          else []).count (Ev.waitOp (OgcJuju.fmtControllerModel i)
            (if i.deployTimeout != 0 then i.deployTimeout else 7200))
          = 0 := by
        split <;> split <;> simp
      have ht : (if i.teardown then [Ev.teardown i.controller]
          else []).count (Ev.waitOp (OgcJuju.fmtControllerModel i)
            (if i.deployTimeout != 0 then i.deployTimeout else 7200))
          = 0 := by
        split <;> split <;> simp
      rw [ha, ht]
      simp
  · intro R j fp hd hok
    rw [OgcJujuInit.initProcess_ok R j fp hd hok]
    simp only [List.count_append]
    rw [OgcJujuInit.count_deployStep_waitStep,
      OgcJujuInit.initCount_waitPhase_waitStep,
      count_configLoop_eq_zero R (OgcJujuInit.fmtControllerModel j)
        j.configSets Ev.waitStep (by simp)]
    have hb : (if !j.reuse && j.bootstrap
        then (OgcJujuInit.bootstrapPhase R j).1
        else []).count Ev.waitStep = 0 := by
      split
      · exact OgcJujuInit.count_bootstrapPhase_waitStep R j
      · simp
    rw [hb]

theorem C4_wait_step_invocations_witness :
    ((OgcJuju.process (fun _ => true)
        { cloud := "aws", controller := "c1", model := "m1",
          bootstrap := true, deploy := true, bundle := "b.yaml",
          deployWait := false } "/tmp/u" "/tmp/ov").1.count Ev.waitStep = 1
      ∧ (OgcJuju.process (fun _ => true)
        { cloud := "aws", controller := "c1", model := "m1",
          bootstrap := true, deploy := true, bundle := "b.yaml",
          deployWait := false } "/tmp/u" "/tmp/ov").1.count
          (Ev.waitOp "c1:m1" 7200) = 0) ∧
    (OgcJujuInit.process (fun _ => true)
        { cloud := "aws", controller := "c1", model := "m1",
          bootstrap := true, deploy := true, bundle := "b.yaml" }
        "/tmp/u").1.count Ev.waitStep = 2 := by
  refine ⟨?_, ?_⟩
  · exact C4_wait_step_invocations.1 (fun _ => true) _ "/tmp/u" "/tmp/ov"
      (by decide) (by decide) (by decide)
  · exact C4_wait_step_invocations.2 (fun _ => true) _ "/tmp/u"
      (by decide) (by decide)

theorem bootstrapPhase_disable_events (R : Ev → Bool)
    (i : OgcJuju.JujuIntent) (hdm : i.disableAddModel = true) :
    ∀ e ∈ (OgcJuju.bootstrapPhase R i).1,
      isAddModelEv e = false ∧ isDeployEv e = false := by
  intro e he
  simp only [OgcJuju.bootstrapPhase, hdm] at he
  by_cases hb : R (Ev.bootstrap (OgcJuju.bootstrapArgs i)) = true <;>
    by_cases hrc : i.replaceController = true <;>
      simp_all [isAddModelEv, isDeployEv] <;>
        rcases he with he | he <;> simp [he, isAddModelEv, isDeployEv]

/-- C6: for every successful run (no override) with `disableAddModel`
true and deploy requested, exactly one add-model operation is issued: it
is not part of the bootstrap phase output, every bootstrap operation
precedes it, and the deploy operation follows it. -/
theorem C6_add_model_once (R : Ev → Bool) (i : OgcJuju.JujuIntent)
    (fp ovp : String) (hr : i.bootstrapRun.isEmpty = true)
    (hdm : i.disableAddModel = true) (hd : i.deploy = true)
    (hok : (OgcJuju.process R i fp ovp).2 = RunStatus.ok) :
    ((OgcJuju.process R i fp ovp).1.countP isAddModelEv = 1) ∧
    ∃ A B, (OgcJuju.process R i fp ovp).1 =
        A ++ Ev.addModel (OgcJuju.addModelArgs i) :: B ∧
      (∀ e ∈ A, isAddModelEv e = false) ∧
      (∀ e ∈ B, isAddModelEv e = false) ∧
      (∀ e ∈ B, isBootstrapEv e = false) ∧
      (∀ e ∈ A, isDeployEv e = false) ∧
      (∃ a, Ev.deploy a ∈ B) := by
  have hp : OgcJuju.process R i fp ovp =
      andThen (if !i.reuse && i.bootstrap then OgcJuju.bootstrapPhase R i
               else ([], RunStatus.ok))
        (andThen (if i.deploy then OgcJuju.deploySection R i fp ovp
                  else ([], RunStatus.ok))
          ((if i.teardown then [Ev.teardown i.controller] else []),
           RunStatus.ok)) := by
    simp [OgcJuju.process, hr]
  rw [hp] at hok ⊢
  obtain ⟨hb2, h2, e1⟩ := andThen_ok _ _ hok
  obtain ⟨hd2, _, e2⟩ := andThen_ok _ _ h2
  have hdsok : (OgcJuju.deploySection R i fp ovp).2 = RunStatus.ok := by
    rw [hd] at hd2
    simpa using hd2
  obtain ⟨_, hdeok, hclok, hdtr⟩ :=
    OgcJuju.deploySection_ok R i fp ovp hdsok
  have hdc : (if i.deploy then OgcJuju.deploySection R i fp ovp
      else ([], RunStatus.ok)).1 = (OgcJuju.deploySection R i fp ovp).1 := by
    rw [hd]
    simp
  have hamtr : (if i.disableAddModel
      then [Ev.addModel (OgcJuju.addModelArgs i)] else [])
      = [Ev.addModel (OgcJuju.addModelArgs i)] := by
    rw [hdm]
    simp
  rw [e1, e2, hdc, hdtr, hamtr]
  set A := (if !i.reuse && i.bootstrap then OgcJuju.bootstrapPhase R i
      else ([], RunStatus.ok)).1 with hAdef
  set Tl := (if i.teardown then [Ev.teardown i.controller] else []) with hTdef
  set B := (OgcJuju.deployStep R i fp ovp).1
      ++ (configLoop R (OgcJuju.fmtControllerModel i) i.configSets).1
      ++ (OgcJuju.waitPhase R i).1 ++ Tl with hBdef
  have hA : ∀ e ∈ A, isAddModelEv e = false ∧ isDeployEv e = false := by
    intro e he
    rw [hAdef] at he
    by_cases hc : (!i.reuse && i.bootstrap) = true
    · rw [hc] at he
      simp only [if_true] at he
      exact bootstrapPhase_disable_events R i hdm e he
    · simp [hc] at he
  have hB : ∀ e ∈ B, isAddModelEv e = false ∧ isBootstrapEv e = false := by
    intro e he
    rw [hBdef] at he
    simp only [List.append_assoc, List.mem_append] at he
    rcases he with he | he | he | he
    · rcases OgcJuju.mem_deployStep R i fp ovp e he with ⟨a, rfl⟩ | ⟨a, rfl⟩
      · exact ⟨rfl, rfl⟩
      · exact ⟨rfl, rfl⟩
    · obtain ⟨c, x, s, rfl⟩ :=
        OgcJuju.configLoop_sub R (OgcJuju.fmtControllerModel i)
          i.configSets e he
      exact ⟨rfl, rfl⟩
    · rcases OgcJuju.mem_waitPhase R i e he with rfl | ⟨c, t, rfl⟩
      · exact ⟨rfl, rfl⟩
      · exact ⟨rfl, rfl⟩
    · rw [hTdef] at he
      rcases hT : i.teardown
      · simp [hT] at he
      · rw [hT] at he
        simp at he
        rw [he]
        exact ⟨rfl, rfl⟩
  have hshape : A ++ ([Ev.addModel (OgcJuju.addModelArgs i)]
        ++ (OgcJuju.deployStep R i fp ovp).1
        ++ (configLoop R (OgcJuju.fmtControllerModel i) i.configSets).1
        ++ (OgcJuju.waitPhase R i).1
        ++ (Tl, RunStatus.ok).1)
      = A ++ Ev.addModel (OgcJuju.addModelArgs i) :: B := by
    rw [hBdef]
    simp [List.append_assoc]
  rw [hshape]
  have hcA : A.countP isAddModelEv = 0 :=
    List.countP_eq_zero.mpr fun e he => by simp [(hA e he).1]
  have hcB : B.countP isAddModelEv = 0 :=
    List.countP_eq_zero.mpr fun e he => by simp [(hB e he).1]
  constructor
  · simp [List.countP_append, List.countP_cons, hcA, hcB, isAddModelEv]
  · refine ⟨A, B, rfl, fun e he => (hA e he).1, fun e he => (hB e he).1,
      fun e he => (hB e he).2, fun e he => (hA e he).2, ?_⟩
    refine ⟨OgcJuju.deployCmdArgs i fp ovp, ?_⟩
    rw [hBdef]
    have : Ev.deploy (OgcJuju.deployCmdArgs i fp ovp)
        ∈ (OgcJuju.deployStep R i fp ovp).1 := by
      rw [OgcJuju.deployStep_ok_fst R i fp ovp hdeok]
      simp
    simp [List.mem_append, this]

theorem C6_add_model_once_witness :
    ((OgcJuju.process (fun _ => true)
        { cloud := "aws", controller := "c1", model := "m1",
          bootstrap := true, disableAddModel := true, deploy := true,
          bundle := "b.yaml" } "/tmp/u" "/tmp/ov").1.countP isAddModelEv
        = 1) ∧
    ∃ A B, (OgcJuju.process (fun _ => true)
        { cloud := "aws", controller := "c1", model := "m1",
          bootstrap := true, disableAddModel := true, deploy := true,
          bundle := "b.yaml" } "/tmp/u" "/tmp/ov").1 =
        A ++ Ev.addModel (OgcJuju.addModelArgs
          { cloud := "aws", controller := "c1", model := "m1",
            bootstrap := true, disableAddModel := true, deploy := true,
            bundle := "b.yaml" }) :: B ∧
      (∀ e ∈ A, isAddModelEv e = false) ∧
      (∀ e ∈ B, isAddModelEv e = false) ∧
      (∀ e ∈ B, isBootstrapEv e = false) ∧
      (∀ e ∈ A, isDeployEv e = false) ∧
      (∃ a, Ev.deploy a ∈ B) :=
  C6_add_model_once (fun _ => true) _ "/tmp/u" "/tmp/ov"
    (by decide) (by decide) (by decide) (by decide)

theorem bootstrapPhase_all (R : Ev → Bool) (i : OgcJuju.JujuIntent)
    (hRb : R (Ev.bootstrap (OgcJuju.bootstrapArgs i)) = true)
    (hRa : R (Ev.addModel (OgcJuju.addModelArgs i)) = true) :
    (OgcJuju.bootstrapPhase R i).2 = RunStatus.ok := by
  by_cases hd : i.disableAddModel = true <;>
    simp [OgcJuju.bootstrapPhase, OgcJuju.addModelStep, hRb, hRa, hd]

theorem deployStep_all (R : Ev → Bool) (i : OgcJuju.JujuIntent)
    (fp ovp : String) (hRp : ∀ a, R (Ev.pull a) = true)
    (hRd : ∀ a, R (Ev.deploy a) = true) :
    (OgcJuju.deployStep R i fp ovp).2 = RunStatus.ok := by
  by_cases hc : (!i.charm.isEmpty) = true <;>
    by_cases hcs : (!i.bundle.isEmpty && startsWithCs i.bundle) = true <;>
      simp [OgcJuju.deployStep, hc, hcs, hRp, hRd]

theorem configLoop_all (R : Ev → Bool) (cm : String)
    (l : List (String × String))
    (hall : ∀ p ∈ l, R (Ev.configSet cm p.1 p.2) = true) :
    configLoop R cm l =
      (l.map fun p => Ev.configSet cm p.1 p.2, RunStatus.ok) := by
  induction l with
  | nil => simp [configLoop]
  | cons p rest ih =>
      obtain ⟨a, s⟩ := p
      have h1 : R (Ev.configSet cm a s) = true := hall (a, s) (by simp)
      have h2 := ih (fun q hq => hall q (by simp [hq]))
      simp [configLoop, h1, h2]

theorem configLoop_two (R : Ev → Bool) (cm : String)
    (c1 c2 : String × String) (rest : List (String × String))
    (h1 : R (Ev.configSet cm c1.1 c1.2) = true)
    (h2 : R (Ev.configSet cm c2.1 c2.2) = false) :
    configLoop R cm (c1 :: c2 :: rest) =
      ([Ev.configSet cm c1.1 c1.2, Ev.configSet cm c2.1 c2.2],
       RunStatus.shErrorReturnCode "juju config failed") := by
  obtain ⟨a1, s1⟩ := c1
  obtain ⟨a2, s2⟩ := c2
  simp [configLoop, h1, h2]

theorem filter_cfg_bootstrapPhase (R : Ev → Bool) (i : OgcJuju.JujuIntent) :
    (OgcJuju.bootstrapPhase R i).1.filter isCfgEv = [] :=
  List.filter_eq_nil_iff.mpr fun e he => by
    rcases OgcJuju.mem_bootstrapPhase R i e he with h | h | h <;>
      simp [h, isCfgEv]

theorem filter_cfg_deployStep (R : Ev → Bool) (i : OgcJuju.JujuIntent)
    (fp ovp : String) :
    (OgcJuju.deployStep R i fp ovp).1.filter isCfgEv = [] :=
  List.filter_eq_nil_iff.mpr fun e he => by
    rcases OgcJuju.mem_deployStep R i fp ovp e he with ⟨a, h⟩ | ⟨a, h⟩ <;>
      simp [h, isCfgEv]

theorem filter_cfg_waitPhase (R : Ev → Bool) (i : OgcJuju.JujuIntent) :
    (OgcJuju.waitPhase R i).1.filter isCfgEv = [] :=
  List.filter_eq_nil_iff.mpr fun e he => by
    rcases OgcJuju.mem_waitPhase R i e he with h | ⟨c, t, h⟩ <;>
      simp [h, isCfgEv]

theorem process_cfg_facts (R : Ev → Bool) (i : OgcJuju.JujuIntent)
    (fp ovp : String) (hr : i.bootstrapRun.isEmpty = true)
    (hd : i.deploy = true)
    (hRb : ∀ a, R (Ev.bootstrap a) = true)
    (hRa : ∀ a, R (Ev.addModel a) = true)
    (hRp : ∀ a, R (Ev.pull a) = true)
    (hRd : ∀ a, R (Ev.deploy a) = true) :
    (OgcJuju.process R i fp ovp).1.filter isCfgEv =
      (configLoop R (OgcJuju.fmtControllerModel i) i.configSets).1.filter
        isCfgEv ∧
    (∀ m, (configLoop R (OgcJuju.fmtControllerModel i) i.configSets).2 =
        RunStatus.shErrorReturnCode m →
      (OgcJuju.process R i fp ovp).2 = RunStatus.shErrorReturnCode m) := by
  have hp : OgcJuju.process R i fp ovp =
      andThen (if !i.reuse && i.bootstrap then OgcJuju.bootstrapPhase R i
               else ([], RunStatus.ok))
        (andThen (if i.deploy then OgcJuju.deploySection R i fp ovp
                  else ([], RunStatus.ok))
          ((if i.teardown then [Ev.teardown i.controller] else []),
           RunStatus.ok)) := by
    simp [OgcJuju.process, hr]
  rw [hp]
  have hbok : (if !i.reuse && i.bootstrap then OgcJuju.bootstrapPhase R i
      else ([], RunStatus.ok)).2 = RunStatus.ok := by
    by_cases hc : (!i.reuse && i.bootstrap) = true <;>
      simp [hc, bootstrapPhase_all R i (hRb _) (hRa _)]
  have hamok : (if i.disableAddModel then OgcJuju.addModelStep R i
      else ([], RunStatus.ok)).2 = RunStatus.ok := by
    by_cases hdm : i.disableAddModel = true <;>
      simp [hdm, OgcJuju.addModelStep, hRa]
  have hdeok := deployStep_all R i fp ovp hRp hRd
  have hbf : (if !i.reuse && i.bootstrap then OgcJuju.bootstrapPhase R i
      else ([], RunStatus.ok)).1.filter isCfgEv = [] := by
    by_cases hc : (!i.reuse && i.bootstrap) = true <;>
      simp [hc, filter_cfg_bootstrapPhase]
  have haf : (if i.disableAddModel then OgcJuju.addModelStep R i
      else ([], RunStatus.ok)).1.filter isCfgEv = [] := by
    by_cases hdm : i.disableAddModel = true <;>
      simp [hdm, OgcJuju.addModelStep_fst, isCfgEv]
  have htf : ((if i.teardown then [Ev.teardown i.controller] else [])
        : List Ev).filter isCfgEv = [] := by
    split <;> simp [isCfgEv]
  constructor
  · simp only [filter_andThen, OgcJuju.deploySection, hbok, hamok, hdeok,
      hd, if_true, hbf, haf, htf, filter_cfg_deployStep,
      filter_cfg_waitPhase, ite_self, List.append_nil, List.nil_append]
  · intro m hm
    simp only [snd_andThen, OgcJuju.deploySection, hbok, hamok, hdeok,
      hd, if_true, hm]
    simp

/-- C8: the configuration step is sequential and fail-fast.  First part:
with every config-set operation succeeding, the run issues one config-set
operation per assignment, in the given order.  Second part (the claim's
scenario): with two (or more) assignments where the second one fails,
exactly two config-set operations are attempted — the first succeeding,
the second failing — no later assignment is attempted, and the run ends
failed with the uncaught config error. -/
theorem C8_config_sequential_stop :
    (∀ (R : Ev → Bool) (i : OgcJuju.JujuIntent) (fp ovp : String),
      i.bootstrapRun.isEmpty = true → i.deploy = true →
      (∀ a, R (Ev.bootstrap a) = true) → (∀ a, R (Ev.addModel a) = true) →
      (∀ a, R (Ev.pull a) = true) → (∀ a, R (Ev.deploy a) = true) →
      (∀ p ∈ i.configSets,
        R (Ev.configSet (OgcJuju.fmtControllerModel i) p.1 p.2) = true) →
      (OgcJuju.process R i fp ovp).1.filter isCfgEv =
        i.configSets.map
          (fun p => Ev.configSet (OgcJuju.fmtControllerModel i) p.1 p.2))
    ∧
    (∀ (R : Ev → Bool) (i : OgcJuju.JujuIntent) (fp ovp : String)
        (c1 c2 : String × String) (rest : List (String × String)),
      i.bootstrapRun.isEmpty = true → i.deploy = true →
      i.configSets = c1 :: c2 :: rest →
      (∀ a, R (Ev.bootstrap a) = true) → (∀ a, R (Ev.addModel a) = true) →
      (∀ a, R (Ev.pull a) = true) → (∀ a, R (Ev.deploy a) = true) →
      R (Ev.configSet (OgcJuju.fmtControllerModel i) c1.1 c1.2) = true →
      R (Ev.configSet (OgcJuju.fmtControllerModel i) c2.1 c2.2) = false →
      ((OgcJuju.process R i fp ovp).1.filter isCfgEv =
        [Ev.configSet (OgcJuju.fmtControllerModel i) c1.1 c1.2,
         Ev.configSet (OgcJuju.fmtControllerModel i) c2.1 c2.2] ∧
       (OgcJuju.process R i fp ovp).2 =
         RunStatus.shErrorReturnCode "juju config failed")) := by
  constructor
  · intro R i fp ovp hr hd hRb hRa hRp hRd hall
    obtain ⟨hf, _⟩ := process_cfg_facts R i fp ovp hr hd hRb hRa hRp hRd
    rw [hf, configLoop_all R _ _ hall]
    exact List.filter_eq_self.mpr fun e he => by
      obtain ⟨p, _, rfl⟩ := List.mem_map.mp he
      rfl
  · intro R i fp ovp c1 c2 rest hr hd hcfg hRb hRa hRp hRd h1 h2
    obtain ⟨hf, hs⟩ := process_cfg_facts R i fp ovp hr hd hRb hRa hRp hRd
    have hcl := configLoop_two R (OgcJuju.fmtControllerModel i)
      c1 c2 rest h1 h2
    constructor
    · rw [hf, hcfg, hcl]
      simp [isCfgEv]
    · exact hs "juju config failed" (by rw [hcfg, hcl])

theorem C8_config_sequential_stop_witness :
    ((OgcJuju.process (fun _ => true)
        { cloud := "aws", controller := "c1", model := "m1",
          bootstrap := true, deploy := true, bundle := "b.yaml",
          configSets := [("app1", "x=true"), ("app2", "y=false")] }
        "/tmp/u" "/tmp/ov").1.filter isCfgEv =
      [Ev.configSet "c1:m1" "app1" "x=true",
       Ev.configSet "c1:m1" "app2" "y=false"]) ∧
    ((OgcJuju.process
        (fun e => match e with
          | Ev.configSet _ "app2" _ => false
          | _ => true)
        { cloud := "aws", controller := "c1", model := "m1",
          bootstrap := true, deploy := true, bundle := "b.yaml",
          configSets := [("app1", "x=true"), ("app2", "y=false")] }
        "/tmp/u" "/tmp/ov").1.filter isCfgEv =
      [Ev.configSet "c1:m1" "app1" "x=true",
       Ev.configSet "c1:m1" "app2" "y=false"] ∧
     (OgcJuju.process
        (fun e => match e with
          | Ev.configSet _ "app2" _ => false
          | _ => true)
        { cloud := "aws", controller := "c1", model := "m1",
          bootstrap := true, deploy := true, bundle := "b.yaml",
          configSets := [("app1", "x=true"), ("app2", "y=false")] }
        "/tmp/u" "/tmp/ov").2 =
      RunStatus.shErrorReturnCode "juju config failed") := by
  constructor
  · exact C8_config_sequential_stop.1 (fun _ => true) _ "/tmp/u" "/tmp/ov"
      (by decide) (by decide) (fun a => rfl) (fun a => rfl) (fun a => rfl)
      (fun a => rfl) (by decide)
  · exact C8_config_sequential_stop.2
      (fun e => match e with
        | Ev.configSet _ "app2" _ => false
        | _ => true)
      _ "/tmp/u" "/tmp/ov" ("app1", "x=true") ("app2", "y=false") []
      (by decide) (by decide) rfl (fun a => rfl) (fun a => rfl)
      (fun a => rfl) (fun a => rfl) (by decide) (by decide)
